import Mathlib

/-!
Shallow embedding of the wapulse-mcp repository (TypeScript) in Lean 4.

Modelling conventions:
* TypeScript strings are modelled as Lean `String`; string operations
  (`slice`, `length`, per-character tests) act on the character list
  `String.data`.  (JS `.length` counts UTF-16 units; for the ASCII data
  these tools handle the two notions coincide.)
* JSON values are modelled by the inductive `Json`; numbers are modelled
  as integers (the upstream payloads relevant to the claims are integral).
* `JSON.parse` of a response body is an external runtime function, so it
  is modelled as an oracle field `parsedBody : Option Json` on the
  response record: `some j` when the body text parses to `j`, `none` when
  parsing throws.
* `fetch` is external as well: `makeApiRequest` takes the upstream
  response as an explicit argument and returns, besides the result, the
  single request it issues (or a configuration error raised before any
  request is made).
* JavaScript truthiness of optional strings (`a || b`) is modelled by
  `jsOrS`, where both `none` (undefined) and `""` are falsy.
-/

/-! ### Generic list/string helpers (substring testing) -/

/-- `listStartsWith needle hay` is true when `needle` is an initial
segment of `hay`. -/
def listStartsWith : List Char → List Char → Bool
  | [], _ => true
  | _ :: _, [] => false
  | n :: ns, h :: hs => n == h && listStartsWith ns hs

/-- `listHasSub needle hay` is true when `needle` occurs as a contiguous
sub-list of `hay`. -/
def listHasSub (needle : List Char) : List Char → Bool
  | [] => listStartsWith needle []
  | h :: hs => listStartsWith needle (h :: hs) || listHasSub needle hs

/-- `strContainsSub hay needle`: does `hay` contain `needle` as a
contiguous substring? -/
def strContainsSub (hay needle : String) : Bool :=
  listHasSub needle.data hay.data

/-! ### JSON values, JS truthiness / string coercion -/

/-- JSON values as produced by `JSON.parse`; numbers are modelled as
integers. -/
inductive Json where
  | null : Json
  | bool : Bool → Json
  | num : Int → Json
  | str : String → Json
  | arr : List Json → Json
  | obj : List (String × Json) → Json

/-- First-match field lookup in the field list of a parsed JSON object
(`JSON.parse` output has unique keys). -/
def lookupField : List (String × Json) → String → Option Json
  | [], _ => none
  | (k, v) :: fs, key => if k = key then some v else lookupField fs key

/-- Field access `j.k` on a JSON value, `none` when `j` is not an object
or lacks the field (JS `undefined`). -/
def jsonField : Json → String → Option Json
  | .obj fs, k => lookupField fs k
  | _, _ => none

/-- JavaScript truthiness of a JSON value. -/
def jsTruthy : Json → Bool
  | .null => false
  | .bool b => b
  | .num n => n != 0
  | .str s => s != ""
  | .arr _ => true
  | .obj _ => true

mutual

/-- JavaScript string coercion of a value in a template literal (arrays
join their coerced elements with commas, `null` elements join as empty). -/
def jsDisplay : Json → String
  | .null => "null"
  | .bool true => "true"
  | .bool false => "false"
  | .num n => toString n
  | .str s => s
  | .arr xs => String.intercalate "," (jsDisplayItems xs)
  | .obj _ => "[object Object]"

/-- Array elements under JS `Array.prototype.toString` joining (`null`
becomes the empty string). -/
def jsDisplayItems : List Json → List String
  | [] => []
  | .null :: xs => "" :: jsDisplayItems xs
  | x :: xs => jsDisplay x :: jsDisplayItems xs

end

/-! ### JSON.stringify(value, null, 2) -/

/-- Lower-case hex digit. -/
def hexDigitChar (n : Nat) : Char :=
  if n < 10 then Char.ofNat (48 + n) else Char.ofNat (87 + n)

/-- Escape one character as inside a JSON string literal
(per `JSON.stringify`). -/
def jsonEscapeChar (c : Char) : String :=
  if c = '"' then "\\\""
  else if c = '\\' then "\\\\"
  else if c = '\n' then "\\n"
  else if c = '\r' then "\\r"
  else if c = '\t' then "\\t"
  else if c.toNat = 8 then "\\b"
  else if c.toNat = 12 then "\\f"
  else if c.toNat < 32 then
    String.mk ['\\', 'u', '0', '0', hexDigitChar (c.toNat / 16), hexDigitChar (c.toNat % 16)]
  else String.mk [c]

/-- JSON string literal with quotes, per `JSON.stringify`. -/
def jsonQuote (s : String) : String :=
  "\"" ++ String.join (s.data.map jsonEscapeChar) ++ "\""

mutual

/-- `JSON.stringify(v, null, 2)` where `ind` is the indentation of the
enclosing container (`""` at top level). -/
def jsonStringify2 (ind : String) : Json → String
  | .null => "null"
  | .bool true => "true"
  | .bool false => "false"
  | .num n => toString n
  | .str s => jsonQuote s
  | .arr [] => "[]"
  | .arr (x :: xs) =>
      "[\n" ++ String.intercalate ",\n" (jsonStringifyItems (ind ++ "  ") (x :: xs))
        ++ "\n" ++ ind ++ "]"
  | .obj [] => "\x7b\x7d"
  | .obj (f :: fs) =>
      "\x7b\n" ++ String.intercalate ",\n" (jsonStringifyFields (ind ++ "  ") (f :: fs))
        ++ "\n" ++ ind ++ "\x7d"

/-- Array items, each on its own line with indentation `ind`. -/
def jsonStringifyItems (ind : String) : List Json → List String
  | [] => []
  | x :: xs => (ind ++ jsonStringify2 ind x) :: jsonStringifyItems ind xs

/-- Object members `"key": value`, each on its own line with
indentation `ind`. -/
def jsonStringifyFields (ind : String) : List (String × Json) → List String
  | [] => []
  | (k, v) :: fs =>
      (ind ++ jsonQuote k ++ ": " ++ jsonStringify2 ind v) :: jsonStringifyFields ind fs

end

/-! ### src/utils/helpers.ts : phone validation and formatting -/

/-- The regex `/^\d{1,4}\d{6,15}$/` from `src/utils/helpers.ts`: a match
is a split of the whole string into a first group of `k ∈ [1,4]` digits
and a second group of 6 to 15 digits (JS `\d` is ASCII `[0-9]`;
unanchored backtracking is irrelevant to match existence, so the test is
the disjunction over the four possible first-group lengths). -/
def phoneRegexTest (s : String) : Bool :=
  [1, 2, 3, 4].any fun k =>
    decide ((s.data.take k).length = k) && (s.data.take k).all Char.isDigit &&
    decide (6 ≤ (s.data.drop k).length) && decide ((s.data.drop k).length ≤ 15) &&
    (s.data.drop k).all Char.isDigit

/-- `validatePhoneNumber` from `src/utils/helpers.ts`. -/
def validatePhoneNumber (phoneNumber : String) : Bool :=
  phoneRegexTest phoneNumber

/-- `formatPhoneNumber` from `src/utils/helpers.ts`: inputs of length at
least 10 are split as `slice(0,-9)` / `slice(-9)` and the 9-char tail is
grouped 3-3-3; shorter inputs are returned unchanged. -/
def formatPhoneNumber (phoneNumber : String) : String :=
  if 10 ≤ phoneNumber.length then
    let countryCode := phoneNumber.data.take (phoneNumber.data.length - 9)
    let number := phoneNumber.data.drop (phoneNumber.data.length - 9)
    "+" ++ String.mk countryCode ++ " " ++ String.mk (number.take 3) ++ " "
      ++ String.mk ((number.drop 3).take 3) ++ " " ++ String.mk (number.drop 6)
  else phoneNumber

/-- `validateParticipants` from `src/utils/helpers.ts`: throws
`McpError(InvalidParams, …)` (modelled as `Except.error` carrying the
message) on an empty list or on the first entry failing
`validatePhoneNumber`. -/
def validateParticipants (participants : List String) : Except String Unit :=
  if participants.length = 0 then
    .error "At least one participant must be provided."
  else
    match participants.find? (fun p => !(validatePhoneNumber p)) with
    | some p =>
        .error ("Invalid phone number format: " ++ p ++
          ". Use format: country code + number (e.g., 353871234567) - no + sign, no spaces")
    | none => .ok ()

/-! ### src/utils/helpers.ts : configuration -/

/-- `InstanceConfig` from `src/types/api.ts` as used by `helpers.ts`. -/
structure InstanceConfig where
  token : String
  instanceID : String
  baseUrl : String
deriving DecidableEq

/-- The environment variables read by this repository; `none` models an
unset variable. -/
structure Env where
  wapulseToken : Option String
  wapulseInstanceID : Option String
  wapulseBaseUrl : Option String
deriving DecidableEq

/-- JS `a || b` for `a : string | undefined` with a string fallback:
both `undefined` and `""` are falsy. -/
def jsOrS (a : Option String) (b : String) : String :=
  match a with
  | some s => if s = "" then b else s
  | none => b

/-- `DEFAULT_CONFIG` from `src/utils/helpers.ts`. -/
def DEFAULT_CONFIG : InstanceConfig :=
  { token := "***REMOVED***"
    instanceID := "d20dba45-852a-4bfc-ab43-8bfd2d28c2a4"
    baseUrl := "https://wapulseserver.com:3003" }

/-- `getConfig` from `src/utils/helpers.ts`: each field is the
environment variable, falling back to the hardcoded default. -/
def getConfig (env : Env) : InstanceConfig :=
  { token := jsOrS env.wapulseToken DEFAULT_CONFIG.token
    instanceID := jsOrS env.wapulseInstanceID DEFAULT_CONFIG.instanceID
    baseUrl := jsOrS env.wapulseBaseUrl DEFAULT_CONFIG.baseUrl }

/-! ### src/utils/helpers.ts : API error translation and requests -/

/-- MCP error codes used by the repository. -/
inductive McpErrorCode where
  | invalidParams : McpErrorCode
  | internalError : McpErrorCode
deriving DecidableEq

/-- `McpError` as thrown by the repository: a code plus the message
argument. -/
structure McpErr where
  code : McpErrorCode
  message : String
deriving DecidableEq

/-- An upstream HTTP response as observed by `makeApiRequest` after
`await response.text()`.  `parsedBody` is the `JSON.parse` oracle for
`bodyText`: `some j` when the body parses to `j`, `none` when
`JSON.parse` throws. -/
structure UpstreamResponse where
  status : Nat
  statusText : String
  bodyText : String
  parsedBody : Option Json

/-- `Response.ok` of the Fetch API: status in the range 200–299. -/
def respOk (r : UpstreamResponse) : Bool :=
  decide (200 ≤ r.status) && decide (r.status < 300)

/-- `handleApiError` from `src/utils/helpers.ts`.  The default message is
`HTTP <status>: <statusText>`; a non-empty body that parses to a JSON
object with a truthy `error` field replaces it with that error (with
` - <details>` appended when `details` is truthy); a non-empty body that
fails to parse — or parses to `null`, on which the `.error` property
access throws and is caught — becomes the message verbatim. -/
def handleApiError (status : Nat) (statusText : String) (errorText : String)
    (parsed : Option Json) : String :=
  let base := "HTTP " ++ toString status ++ ": " ++ statusText
  if errorText = "" then base
  else
    match parsed with
    | none => errorText
    | some .null => errorText
    | some j =>
      match jsonField j "error" with
      | some e =>
        if jsTruthy e then
          match jsonField j "details" with
          | some d => if jsTruthy d then jsDisplay e ++ " - " ++ jsDisplay d else jsDisplay e
          | none => jsDisplay e
        else base
      | none => base

/-- Insertion of a key into a JS object literal: an existing key keeps
its position and gets the new value, a fresh key is appended. -/
def setKey : List (String × Json) → String → Json → List (String × Json)
  | [], k, v => [(k, v)]
  | (k', v') :: rest, k, v =>
      if k' = k then (k', v) :: rest else (k', v') :: setKey rest k v

/-- JS object spread `\x7b …base, …extra \x7d`: fields of `extra` are
inserted left to right over `base`. -/
def jsSpread (base extra : List (String × Json)) : List (String × Json) :=
  extra.foldl (fun acc kv => setKey acc kv.1 kv.2) base

/-- The single HTTP request `makeApiRequest` hands to `fetch`. -/
structure ApiRequest where
  url : String
  method : String
  contentType : String
  body : Json

/-- Outcome of `makeApiRequest`: either a configuration error thrown
before `fetch` is ever called, or the one issued request together with
the call's result (`Except.error` models the thrown `McpError`). -/
inductive ApiOutcome where
  | configError (err : McpErr)
  | requested (req : ApiRequest) (result : Except McpErr Json)

/-- Token resolution in `makeApiRequest`:
`customToken || config.token` with `config.token` from `getConfig`. -/
def resolveToken (customToken : Option String) (env : Env) : String :=
  jsOrS customToken (getConfig env).token

/-- Instance-ID resolution in `makeApiRequest`:
`customInstanceID || config.instanceID`. -/
def resolveInstanceID (customInstanceID : Option String) (env : Env) : String :=
  jsOrS customInstanceID (getConfig env).instanceID

/-- `makeApiRequest` from `src/utils/helpers.ts`.  Resolves token and
instance ID, throws `McpError(InvalidParams, …)` before any request when
either resolves falsy, builds the body
`\x7b token, instanceID, ...data \x7d`, issues one POST with JSON content
type, and on a 2xx response returns the parsed JSON body or the
`\x7b success: true, data: <raw text> \x7d` envelope when parsing fails;
on a non-2xx response it throws
`McpError(InternalError, handleApiError(...))`. -/
def makeApiRequest (endpoint : String) (data : List (String × Json))
    (customToken customInstanceID : Option String) (env : Env)
    (resp : UpstreamResponse) : ApiOutcome :=
  let config := getConfig env
  let token := resolveToken customToken env
  let instanceID := resolveInstanceID customInstanceID env
  if token = "" then
    .configError ⟨.invalidParams,
      "WaPulse token not configured. Please set WAPULSE_TOKEN environment variable or provide customToken parameter."⟩
  else if instanceID = "" then
    .configError ⟨.invalidParams,
      "WaPulse instance ID not configured. Please set WAPULSE_INSTANCE_ID environment variable or provide customInstanceID parameter."⟩
  else
    let url := config.baseUrl ++ endpoint
    let requestBody := jsSpread [("token", .str token), ("instanceID", .str instanceID)] data
    let req : ApiRequest := ⟨url, "POST", "application/json", .obj requestBody⟩
    if respOk resp then
      match resp.parsedBody with
      | some j => .requested req (.ok j)
      | none => .requested req (.ok (.obj [("success", .bool true), ("data", .str resp.bodyText)]))
    else
      .requested req (.error ⟨.internalError,
        handleApiError resp.status resp.statusText resp.bodyText resp.parsedBody⟩)

/-- The request of an `ApiOutcome`, when one was issued. -/
def reqOf : ApiOutcome → Option ApiRequest
  | .configError _ => none
  | .requested r _ => some r

/-- The result of an `ApiOutcome`, when a request was issued. -/
def resultOf : ApiOutcome → Option (Except McpErr Json)
  | .configError _ => none
  | .requested _ res => some res

/-- The code of the error thrown by an `ApiOutcome`, if any. -/
def errCodeOf : ApiOutcome → Option McpErrorCode
  | .configError e => some e.code
  | .requested _ (.error e) => some e.code
  | .requested _ (.ok _) => none

/-- The message of the error thrown by an `ApiOutcome`, if any. -/
def errMsgOf : ApiOutcome → Option String
  | .configError e => some e.message
  | .requested _ (.error e) => some e.message
  | .requested _ (.ok _) => none

/-- Whether the outcome is a configuration error (thrown before any
network call). -/
def isConfigError : ApiOutcome → Bool
  | .configError _ => true
  | .requested _ _ => false

/-! ### src/utils/config.ts : lazy global configuration -/

/-- `globalConfig` from `src/utils/config.ts`, populated by
`parseConfigFromUrl` / `parseConfigFromEnv`. -/
structure GlobalConfig where
  wapulseToken : Option String
  wapulseInstanceID : Option String
deriving DecidableEq

/-- Token chain of `getEffectiveConfig`:
`customToken || globalConfig.wapulseToken || process.env.WAPULSE_TOKEN`
(`""` models the all-falsy result). -/
def effToken (customToken : Option String) (globalConfig : GlobalConfig) (env : Env) : String :=
  jsOrS customToken (jsOrS globalConfig.wapulseToken (jsOrS env.wapulseToken ""))

/-- Instance-ID chain of `getEffectiveConfig`. -/
def effInstanceID (customInstanceID : Option String) (globalConfig : GlobalConfig)
    (env : Env) : String :=
  jsOrS customInstanceID (jsOrS globalConfig.wapulseInstanceID (jsOrS env.wapulseInstanceID ""))

/-- `getEffectiveConfig` from `src/utils/config.ts`:
`customToken || globalConfig.wapulseToken || process.env.WAPULSE_TOKEN`
(and likewise for the instance ID); throws when either resolves falsy. -/
def getEffectiveConfig (customToken customInstanceID : Option String)
    (globalConfig : GlobalConfig) (env : Env) : Except String (String × String) :=
  let token := effToken customToken globalConfig env
  let instanceID := effInstanceID customInstanceID globalConfig env
  if token = "" ∨ instanceID = "" then
    .error "WaPulse configuration required. Please provide wapulseToken and wapulseInstanceID in server configuration or as custom parameters."
  else
    .ok (token, instanceID)

/-! ### zod argument validation for the tool handlers -/

/-- zod `z.string().optional()` on field `k` of an argument object:
absent is fine, a present non-string fails. -/
def zodOptionalString (fs : List (String × Json)) (k : String) :
    Except String (Option String) :=
  match lookupField fs k with
  | none => .ok none
  | some (.str s) => .ok (some s)
  | some _ => .error ("Expected string, received other for " ++ k)

/-- zod `z.array(z.string().regex(/^\d{1,4}\d{6,15}$/))` element check:
every element must be a string matching the phone regex. -/
def zodPhoneStringList : List Json → Except String (List String)
  | [] => .ok []
  | .str s :: rest =>
      if phoneRegexTest s then
        match zodPhoneStringList rest with
        | .ok ss => .ok (s :: ss)
        | .error e => .error e
      else .error "Invalid phone number format"
  | _ :: _ => .error "Expected string, received other"

/-- Parsed arguments shared by the five group-participant handlers. -/
structure ParticipantsArgs where
  id : String
  participants : List String
  customToken : Option String
  customInstanceID : Option String

/-- The zod schema shared by the group-participant handlers:
`id: z.string().min(1)`,
`<listField>: z.array(z.string().regex(phone)).min(1).max(maxItems)`, and
two optional override strings; `listField` is `"participants"` or
`"numbers"` and `maxItems` is 50 or 20 depending on the tool. -/
def parseParticipantsArgs (listField : String) (maxItems : Nat) (args : Json) :
    Except String ParticipantsArgs :=
  match args with
  | .obj fs =>
    match lookupField fs "id" with
    | some (.str id) =>
      if id.length < 1 then .error "Group ID cannot be empty"
      else
        match lookupField fs listField with
        | some (.arr items) =>
          match zodPhoneStringList items with
          | .error e => .error e
          | .ok ps =>
            if ps.length < 1 then .error ("Array must contain at least 1 element(s) in " ++ listField)
            else if maxItems < ps.length then
              .error ("Array must contain at most " ++ toString maxItems ++ " element(s) in " ++ listField)
            else
              match zodOptionalString fs "customToken" with
              | .error e => .error e
              | .ok ct =>
                match zodOptionalString fs "customInstanceID" with
                | .error e => .error e
                | .ok cid => .ok ⟨id, ps, ct, cid⟩
        | some _ => .error ("Expected array, received other in " ++ listField)
        | none => .error ("Required field " ++ listField ++ " missing")
    | some _ => .error "Expected string, received other in id"
    | none => .error "Required field id missing"
  | _ => .error "Expected object, received other"

/-- Schema of `handleAddParticipants`
(`src/tools/group/addParticipants.ts`): `participants`, max 50. -/
def parseAddParticipantsArgs : Json → Except String ParticipantsArgs :=
  parseParticipantsArgs "participants" 50

/-- Schema of `handleRemoveParticipants`
(`src/tools/group/removeParticipants.ts`): `participants`, max 50. -/
def parseRemoveParticipantsArgs : Json → Except String ParticipantsArgs :=
  parseParticipantsArgs "participants" 50

/-- Schema of `handlePromoteParticipants`
(`src/tools/group/promoteParticipants.ts`): `participants`, max 20. -/
def parsePromoteParticipantsArgs : Json → Except String ParticipantsArgs :=
  parseParticipantsArgs "participants" 20

/-- Schema of `handleDemoteParticipants`
(`src/tools/group/demoteParticipants.ts`): `participants`, max 20. -/
def parseDemoteParticipantsArgs : Json → Except String ParticipantsArgs :=
  parseParticipantsArgs "participants" 20

/-- Schema of `handleApproveGroupRequest`
(`approveGroupRequest.ts`): `numbers`, max 20. -/
def parseApproveGroupRequestArgs : Json → Except String ParticipantsArgs :=
  parseParticipantsArgs "numbers" 20

/-! ### Tool handler outcomes -/

/-- Run of a tool handler: a zod schema error (thrown by `schema.parse`
before the `try` block, hence before any network activity), a thrown
user-facing error (optionally after a request was issued), or a success
with the returned text block.  The `request` components record the
single upstream request made, if any. -/
inductive HandlerRun where
  | schemaError (msg : String)
  | failure (request : Option ApiRequest) (msg : String)
  | success (request : ApiRequest) (text : String)

/-- The upstream request a handler run issued, if any. -/
def requestOf : HandlerRun → Option ApiRequest
  | .schemaError _ => none
  | .failure r _ => r
  | .success r _ => some r

/-- The text block of a successful handler run. -/
def textOf : HandlerRun → Option String
  | .success _ t => some t
  | _ => none

/-- `Except.isOk` as a plain Bool. -/
def exceptIsOk {ε α : Type} : Except ε α → Bool
  | .ok _ => true
  | .error _ => false

/-! ### Group participant tool handlers -/

/-- `handleAddParticipants` from `src/tools/group/addParticipants.ts`:
zod parse, `validateParticipants`, one `makeApiRequest` to
`/api/addParticipants`, then the decorated text block; any error thrown
inside the `try` is re-thrown as
`Failed to add participants to group <id>: <message>`. -/
def handleAddParticipants (args : Json) (env : Env) (resp : UpstreamResponse) : HandlerRun :=
  match parseAddParticipantsArgs args with
  | .error e => .schemaError e
  | .ok a =>
    let wrap := fun (m : String) => "Failed to add participants to group " ++ a.id ++ ": " ++ m
    match validateParticipants a.participants with
    | .error e => .failure none (wrap e)
    | .ok _ =>
      match makeApiRequest "/api/addParticipants"
          [("id", .str a.id), ("participants", .arr (a.participants.map Json.str))]
          a.customToken a.customInstanceID env resp with
      | .configError err => .failure none (wrap err.message)
      | .requested req (.error err) => .failure (some req) (wrap err.message)
      | .requested req (.ok response) =>
        let formattedParticipants :=
          String.intercalate "\n" (a.participants.map (fun p => "📱 " ++ formatPhoneNumber p))
        .success req
          ("✅ Participants added to WhatsApp group successfully!\n\n👥 Group ID: " ++ a.id
            ++ "\n📊 Added: " ++ toString a.participants.length
            ++ " participants\n\n👤 New Members:\n" ++ formattedParticipants
            ++ "\n\n📋 Response: " ++ jsonStringify2 "" response)

/-- `handleRemoveParticipants` from
`src/tools/group/removeParticipants.ts` (same shape as add; endpoint
`/api/removeParticipants`, max 50 participants). -/
def handleRemoveParticipants (args : Json) (env : Env) (resp : UpstreamResponse) : HandlerRun :=
  match parseRemoveParticipantsArgs args with
  | .error e => .schemaError e
  | .ok a =>
    let wrap := fun (m : String) => "Failed to remove participants from group " ++ a.id ++ ": " ++ m
    match validateParticipants a.participants with
    | .error e => .failure none (wrap e)
    | .ok _ =>
      match makeApiRequest "/api/removeParticipants"
          [("id", .str a.id), ("participants", .arr (a.participants.map Json.str))]
          a.customToken a.customInstanceID env resp with
      | .configError err => .failure none (wrap err.message)
      | .requested req (.error err) => .failure (some req) (wrap err.message)
      | .requested req (.ok response) =>
        let formattedParticipants :=
          String.intercalate "\n" (a.participants.map (fun p => "📱 " ++ formatPhoneNumber p))
        .success req
          ("✅ Participants removed from WhatsApp group successfully!\n\n👥 Group ID: " ++ a.id
            ++ "\n📊 Removed: " ++ toString a.participants.length
            ++ " participants\n\n👤 Removed Members:\n" ++ formattedParticipants
            ++ "\n\n📋 Response: " ++ jsonStringify2 "" response)

/-- `handlePromoteParticipants` from
`src/tools/group/promoteParticipants.ts` (max 20 participants, endpoint
`/api/promoteParticipants`). -/
def handlePromoteParticipants (args : Json) (env : Env) (resp : UpstreamResponse) : HandlerRun :=
  match parsePromoteParticipantsArgs args with
  | .error e => .schemaError e
  | .ok a =>
    let wrap := fun (m : String) => "Failed to promote participants in group " ++ a.id ++ ": " ++ m
    match validateParticipants a.participants with
    | .error e => .failure none (wrap e)
    | .ok _ =>
      match makeApiRequest "/api/promoteParticipants"
          [("id", .str a.id), ("participants", .arr (a.participants.map Json.str))]
          a.customToken a.customInstanceID env resp with
      | .configError err => .failure none (wrap err.message)
      | .requested req (.error err) => .failure (some req) (wrap err.message)
      | .requested req (.ok response) =>
        let formattedParticipants :=
          String.intercalate "\n" (a.participants.map (fun p => "👑 " ++ formatPhoneNumber p))
        .success req
          ("✅ Participants promoted to admin status successfully!\n\n👥 Group ID: " ++ a.id
            ++ "\n📊 Promoted: " ++ toString a.participants.length
            ++ " participants\n\n👑 New Admins:\n" ++ formattedParticipants
            ++ "\n\n📋 Response: " ++ jsonStringify2 "" response)

/-- `handleDemoteParticipants` from
`src/tools/group/demoteParticipants.ts` (max 20 participants, endpoint
`/api/demoteParticipants`). -/
def handleDemoteParticipants (args : Json) (env : Env) (resp : UpstreamResponse) : HandlerRun :=
  match parseDemoteParticipantsArgs args with
  | .error e => .schemaError e
  | .ok a =>
    let wrap := fun (m : String) => "Failed to demote participants in group " ++ a.id ++ ": " ++ m
    match validateParticipants a.participants with
    | .error e => .failure none (wrap e)
    | .ok _ =>
      match makeApiRequest "/api/demoteParticipants"
          [("id", .str a.id), ("participants", .arr (a.participants.map Json.str))]
          a.customToken a.customInstanceID env resp with
      | .configError err => .failure none (wrap err.message)
      | .requested req (.error err) => .failure (some req) (wrap err.message)
      | .requested req (.ok response) =>
        let formattedParticipants :=
          String.intercalate "\n" (a.participants.map (fun p => "👤 " ++ formatPhoneNumber p))
        .success req
          ("✅ Participants demoted from admin status successfully!\n\n👥 Group ID: " ++ a.id
            ++ "\n📊 Demoted: " ++ toString a.participants.length
            ++ " participants\n\n👤 Demoted Members:\n" ++ formattedParticipants
            ++ "\n\n📋 Response: " ++ jsonStringify2 "" response)

/-- `success` flag test `response.success === 'true' || response.success
=== true` used by the approve/reject handlers. -/
def jsonSuccessFlag (j : Json) : Bool :=
  match jsonField j "success" with
  | some (.str s) => s = "true"
  | some (.bool b) => b
  | _ => false

/-- `handleApproveGroupRequest` from `approveGroupRequest.ts` (field
`numbers`, max 20, endpoint `/api/approveGroupRequest`). -/
def handleApproveGroupRequest (args : Json) (env : Env) (resp : UpstreamResponse) : HandlerRun :=
  match parseApproveGroupRequestArgs args with
  | .error e => .schemaError e
  | .ok a =>
    let wrap := fun (m : String) => "Failed to approve group requests for group " ++ a.id ++ ": " ++ m
    match validateParticipants a.participants with
    | .error e => .failure none (wrap e)
    | .ok _ =>
      match makeApiRequest "/api/approveGroupRequest"
          [("id", .str a.id), ("numbers", .arr (a.participants.map Json.str))]
          a.customToken a.customInstanceID env resp with
      | .configError err => .failure none (wrap err.message)
      | .requested req (.error err) => .failure (some req) (wrap err.message)
      | .requested req (.ok response) =>
        let success := jsonSuccessFlag response
        let formattedNumbers :=
          String.intercalate "\n" (a.participants.map (fun n => "✅ " ++ formatPhoneNumber n))
        .success req
          ((if success then "✅" else "⚠️") ++ " Group join requests processed!\n\n👥 Group ID: "
            ++ a.id ++ "\n📊 Approved: " ++ toString a.participants.length
            ++ " requests\n🎉 Status: " ++ (if success then "SUCCESS" else "PARTIAL/FAILED")
            ++ "\n\n✅ Approved Requests:\n" ++ formattedNumbers
            ++ "\n\n🎉 These users can now participate in the group!\n💬 They will receive a notification that they've been added.\n\n📋 Response: "
            ++ jsonStringify2 "" response)

/-! ### Messaging tool handlers -/

/-- Parsed arguments of `handleSendMessage`. -/
structure SendMessageArgs where
  toNumber : String
  message : String
  recipientType : String
  customToken : Option String
  customInstanceID : Option String

/-- The zod schema of `handleSendMessage`: `to` must match the phone
regex, `message` must have length 1–4096, `type` defaults to `"user"`
and must be `"user"` or `"group"` when present. -/
def parseSendMessageArgs (args : Json) : Except String SendMessageArgs :=
  match args with
  | .obj fs =>
    match lookupField fs "to" with
    | some (.str toNumber) =>
      if phoneRegexTest toNumber then
        match lookupField fs "message" with
        | some (.str message) =>
          if message.length < 1 then .error "String must contain at least 1 character(s)"
          else if 4096 < message.length then .error "String must contain at most 4096 character(s)"
          else
            match lookupField fs "type" with
            | none =>
              match zodOptionalString fs "customToken" with
              | .error e => .error e
              | .ok ct =>
                match zodOptionalString fs "customInstanceID" with
                | .error e => .error e
                | .ok cid => .ok ⟨toNumber, message, "user", ct, cid⟩
            | some (.str t) =>
              if t = "user" ∨ t = "group" then
                match zodOptionalString fs "customToken" with
                | .error e => .error e
                | .ok ct =>
                  match zodOptionalString fs "customInstanceID" with
                  | .error e => .error e
                  | .ok cid => .ok ⟨toNumber, message, t, ct, cid⟩
              else .error "Invalid enum value for type"
            | some _ => .error "Expected string, received other in type"
        | some _ => .error "Expected string, received other in message"
        | none => .error "Required field message missing"
      else .error "Invalid phone number format"
    | some _ => .error "Expected string, received other in to"
    | none => .error "Required field to missing"
  | _ => .error "Expected object, received other"

/-- `handleSendMessage` from the send-message tool module: zod parse, a
redundant `validatePhoneNumber` re-check (thrown outside the `try`),
one `makeApiRequest` to `/api/sendMessage`, then the text block. -/
def handleSendMessage (args : Json) (env : Env) (resp : UpstreamResponse) : HandlerRun :=
  match parseSendMessageArgs args with
  | .error e => .schemaError e
  | .ok a =>
    if !(validatePhoneNumber a.toNumber) then
      .failure none ("Invalid phone number format: " ++ a.toNumber
        ++ ". Use format: country code + number (e.g., 972512345678) - no + sign, no spaces")
    else
      let wrap := fun (m : String) =>
        "Failed to send message to " ++ formatPhoneNumber a.toNumber ++ ": " ++ m
      match makeApiRequest "/api/sendMessage"
          [("to", .str a.toNumber), ("message", .str a.message), ("type", .str a.recipientType)]
          a.customToken a.customInstanceID env resp with
      | .configError err => .failure none (wrap err.message)
      | .requested req (.error err) => .failure (some req) (wrap err.message)
      | .requested req (.ok response) =>
        let formattedPhone := formatPhoneNumber a.toNumber
        .success req
          ("✅ Message sent successfully to " ++ formattedPhone ++ "!\n\n📱 Recipient: "
            ++ formattedPhone ++ "\n💬 Message: \"" ++ a.message
            ++ "\"\n📊 Response: " ++ jsonStringify2 "" response)

/-- The country-code echo of `handleValidatePhoneNumber`:
`phoneNumber.match(/^(\d{1,4})/)?.[1] || ''`, i.e. the greedy match of up
to four leading ASCII digits (empty when the string does not start with a
digit). -/
def extractCountryCode (phoneNumber : String) : String :=
  String.mk ((phoneNumber.data.takeWhile Char.isDigit).take 4)

/-- `handleValidatePhoneNumber` from
`src/tools/messaging/validatePhoneNumber.ts`: zod requires a string
`phoneNumber`; the reply text reports VALID with the formatted number
and extracted country code, or INVALID with a hint. -/
def handleValidatePhoneNumber (args : Json) : Except String String :=
  match args with
  | .obj fs =>
    match lookupField fs "phoneNumber" with
    | some (.str phoneNumber) =>
      if validatePhoneNumber phoneNumber then
        let formatted := formatPhoneNumber phoneNumber
        let countryCode := extractCountryCode phoneNumber
        .ok ("✅ Phone number is valid!\n\n📱 Original: " ++ phoneNumber
          ++ "\n📞 Formatted: " ++ formatted ++ "\n🌍 Country Code: " ++ countryCode
          ++ "\n📊 Status: VALID")
      else
        .ok ("❌ Phone number is invalid!\n\n📱 Number: " ++ phoneNumber
          ++ "\n🚫 Error: Must be 7-19 digits with country code\n📊 Status: INVALID\n\n💡 Tip: Phone numbers should include country code (e.g., 972512345678 for Israel)")
    | some _ => .error "Expected string, received other in phoneNumber"
    | none => .error "Required field phoneNumber missing"
  | _ => .error "Expected object, received other"

/-! ### Rate limiting (auth helpers module) -/

/-- Per-user rate limits (`AuthenticatedUser.rateLimit`). -/
structure RateLimitCfg where
  requestsPerMinute : Nat
  requestsPerHour : Nat
deriving DecidableEq

/-- `DEFAULT_RATE_LIMITS` from the auth helpers module. -/
def DEFAULT_RATE_LIMITS : RateLimitCfg :=
  { requestsPerMinute := 60, requestsPerHour := 1000 }

/-- One `rateLimitMap` entry: `\x7b count, resetTime \x7d`. -/
structure RLEntry where
  count : Nat
  resetTime : Nat
deriving DecidableEq

/-- The in-memory `rateLimitMap`, as an association list with unique
keys (JS `Map`). -/
def RLMap := List (String × RLEntry)

/-- `Map.get` on the rate-limit map. -/
def rlGet (m : RLMap) (k : String) : Option RLEntry :=
  match m with
  | [] => none
  | (k', e) :: rest => if k' = k then some e else rlGet rest k

/-- `Map.set` on the rate-limit map (replace in place or append). -/
def rlSet (m : RLMap) (k : String) (e : RLEntry) : RLMap :=
  match m with
  | [] => [(k, e)]
  | (k', e') :: rest => if k' = k then (k', e) :: rest else (k', e') :: rlSet rest k e

/-- The stored counter for key `k` (0 when absent). -/
def rlCount (m : RLMap) (k : String) : Nat :=
  match rlGet m k with
  | some e => e.count
  | none => 0

/-- The minute-window key `` `${userId}:${Math.floor(now / 60000)}` ``. -/
def minuteKeyOf (userId : String) (now : Nat) : String :=
  userId ++ ":" ++ toString (now / 60000)

/-- The hour-window key `` `${userId}:${Math.floor(now / 3600000)}` ``. -/
def hourKeyOf (userId : String) (now : Nat) : String :=
  userId ++ ":" ++ toString (now / 3600000)

/-- `checkRateLimit` from the auth helpers module.  Returns
`(some message, m)` when the call throws (the map untouched — both
throws happen before any `set`), and `(none, m')` when the call is
admitted, where `m'` has both window counters bumped and entries with
`resetTime < now` cleaned up. -/
def checkRateLimit (userId : String) (rateLimit : Option RateLimitCfg) (now : Nat)
    (m : RLMap) : Option String × RLMap :=
  let limits := rateLimit.getD DEFAULT_RATE_LIMITS
  let minuteKey := minuteKeyOf userId now
  let minuteData := (rlGet m minuteKey).getD ⟨0, now + 60000⟩
  if limits.requestsPerMinute ≤ minuteData.count then
    (some ("Rate limit exceeded: " ++ toString limits.requestsPerMinute
      ++ " requests per minute. Try again in "
      ++ toString ((minuteData.resetTime - now + 999) / 1000) ++ " seconds."), m)
  else
    let hourKey := hourKeyOf userId now
    let hourData := (rlGet m hourKey).getD ⟨0, now + 3600000⟩
    if limits.requestsPerHour ≤ hourData.count then
      (some ("Rate limit exceeded: " ++ toString limits.requestsPerHour
        ++ " requests per hour. Try again in "
        ++ toString ((hourData.resetTime - now + 59999) / 60000) ++ " minutes."), m)
    else
      let m1 := rlSet m minuteKey ⟨minuteData.count + 1, minuteData.resetTime⟩
      let m2 := rlSet m1 hourKey ⟨hourData.count + 1, hourData.resetTime⟩
      let m3 := m2.filter (fun kv => !(decide (kv.2.resetTime < now)))
      (none, m3)

/-! ### The spec's claimed configuration precedence (for refinement
comparison only) -/

/-- Modelled from the spec's words, NOT from the source: "override >
environment variable > hardcoded default".  Used to compare the claimed
resolution order against `getEffectiveConfig`, which actually consults
the URL-populated global config between the override and nothing else
falls back to the environment variable. -/
def specClaimedResolution (callOverride envVar : Option String) (hardcodedDefault : String) :
    String :=
  jsOrS callOverride (jsOrS envVar hardcodedDefault)

/-! ### Sample inputs used by concrete theorems -/

/-- An unconfigured environment (no WaPulse variables set). -/
def env0 : Env := ⟨none, none, none⟩

/-- A sample 2xx response used to instantiate handler runs. -/
def respSample : UpstreamResponse := ⟨200, "OK", "\x7b\x7d", some (.obj [])⟩

/-- 21 syntactically valid phone numbers. -/
def phones21 : List String :=
  ["353871234501", "353871234502", "353871234503", "353871234504", "353871234505",
   "353871234506", "353871234507", "353871234508", "353871234509", "353871234510",
   "353871234511", "353871234512", "353871234513", "353871234514", "353871234515",
   "353871234516", "353871234517", "353871234518", "353871234519", "353871234520",
   "353871234521"]

/-- Argument object with 21 participants for the `participants`-field
tools. -/
def args21 : Json :=
  .obj [("id", .str "123456789@g.us"), ("participants", .arr (phones21.map Json.str))]

/-- Argument object with 21 numbers for the `numbers`-field tools. -/
def args21N : Json :=
  .obj [("id", .str "123456789@g.us"), ("numbers", .arr (phones21.map Json.str))]

/-- Arguments with a single participant. -/
def argsOne : Json :=
  .obj [("id", .str "123456789@g.us"), ("participants", .arr [.str "353871234567"])]

/-- A 2xx response whose body is compact JSON. -/
def respCompactJson : UpstreamResponse := ⟨200, "OK", "\x7b\"a\":1\x7d", some (.obj [("a", .num 1)])⟩

/-! ### Generic substring lemmas -/

theorem listStartsWith_append (b c : List Char) :
    listStartsWith b (b ++ c) = true := by
  induction b with
  | nil => rfl
  | cons x xs ih => simp [listStartsWith, ih]

theorem listHasSub_append_append (a b c : List Char) :
    listHasSub b (a ++ (b ++ c)) = true := by
  induction a with
  | nil =>
    cases b with
    | nil => cases c <;> simp [listHasSub, listStartsWith]
    | cons x xs =>
      have h := listStartsWith_append (x :: xs) c
      show (listStartsWith (x :: xs) ((x :: xs) ++ c) || listHasSub (x :: xs) (xs ++ c)) = true
      rw [h, Bool.true_or]
  | cons x xs ih =>
    show (listStartsWith b (x :: (xs ++ (b ++ c))) || listHasSub b (xs ++ (b ++ c))) = true
    rw [ih, Bool.or_true]

theorem strContainsSub_middle (a b c : String) :
    strContainsSub (a ++ b ++ c) b = true := by
  simp only [strContainsSub, String.data_append, List.append_assoc]
  exact listHasSub_append_append a.data b.data c.data

theorem strContainsSub_suffix (a b : String) :
    strContainsSub (a ++ b) b = true := by
  have h := strContainsSub_middle a b ""
  simpa using h

/-! ### Claim theorems -/

/-- C1: the phone-number validator accepts a string iff it consists of
exactly 7 to 19 ASCII digits and nothing else (equivalently: a country
code of 1–4 digits followed by a subscriber number of 6–15 digits with
no separators). -/
theorem validatePhoneNumber_iff_7_to_19_digits (s : String) :
    validatePhoneNumber s = true ↔
      (s.data.all Char.isDigit = true ∧ 7 ≤ s.length ∧ s.length ≤ 19) := by
  have hlen : s.length = s.data.length := rfl
  unfold validatePhoneNumber phoneRegexTest
  rw [List.any_eq_true]
  constructor
  · rintro ⟨k, hk, hcond⟩
    simp only [List.mem_cons, List.not_mem_nil, or_false] at hk
    simp only [Bool.and_eq_true, decide_eq_true_eq] at hcond
    obtain ⟨⟨⟨⟨h1, h2⟩, h3⟩, h4⟩, h5⟩ := hcond
    have hk14 : 1 ≤ k ∧ k ≤ 4 := by rcases hk with h | h | h | h <;> omega
    have hmin : min k s.data.length = k := by
      simpa [List.length_take] using h1
    have hkle : k ≤ s.data.length := by omega
    have hdl : (s.data.drop k).length = s.data.length - k := List.length_drop k s.data
    constructor
    · have hsplit := List.take_append_drop k s.data
      have : ((s.data.take k) ++ (s.data.drop k)).all Char.isDigit = true := by
        rw [List.all_append, h2, h5]; rfl
      rwa [hsplit] at this
    · rw [hlen]; omega
  · rintro ⟨hall, h7, h19⟩
    rw [hlen] at h7 h19
    rw [List.all_eq_true] at hall
    refine ⟨if s.data.length ≤ 10 then s.data.length - 6 else 4, ?_, ?_⟩
    · simp only [List.mem_cons, List.not_mem_nil, or_false]
      split <;> omega
    · have hk14 : 1 ≤ (if s.data.length ≤ 10 then s.data.length - 6 else 4)
          ∧ (if s.data.length ≤ 10 then s.data.length - 6 else 4) ≤ 4 := by
        split <;> omega
      simp only [Bool.and_eq_true, decide_eq_true_eq]
      refine ⟨⟨⟨⟨?_, ?_⟩, ?_⟩, ?_⟩, ?_⟩
      · simp only [List.length_take]; omega
      · rw [List.all_eq_true]
        exact fun x hx => hall x (List.take_subset _ _ hx)
      · simp only [List.length_drop]; split <;> omega
      · simp only [List.length_drop]; split <;> omega
      · rw [List.all_eq_true]
        exact fun x hx => hall x (List.drop_subset _ _ hx)

/-- C1 witness: the validator accepts the 12-digit string
`"972512345678"`, and the characterization applies to it. -/
theorem validatePhoneNumber_iff_7_to_19_digits_witness :
    validatePhoneNumber "972512345678" = true :=
  (validatePhoneNumber_iff_7_to_19_digits "972512345678").mpr
    ⟨by decide, by decide, by decide⟩

/-- C10: `formatPhoneNumber` splits by a fixed 9-character suffix rule:
for inputs of length ≥ 10 it returns `+` followed by all but the last 9
characters and the last 9 characters grouped 3-3-3 with spaces; shorter
inputs are returned unchanged; and any input longer than 13 characters
(in particular any valid phone number of 14–19 digits) is displayed with
a "country code" part longer than 4 characters. -/
theorem formatPhoneNumber_fixed_suffix_spec (s : String) :
    (10 ≤ s.length →
      formatPhoneNumber s =
        "+" ++ String.mk (s.data.take (s.data.length - 9)) ++ " "
          ++ String.mk ((s.data.drop (s.data.length - 9)).take 3) ++ " "
          ++ String.mk (((s.data.drop (s.data.length - 9)).drop 3).take 3) ++ " "
          ++ String.mk ((s.data.drop (s.data.length - 9)).drop 6))
    ∧ (s.length < 10 → formatPhoneNumber s = s)
    ∧ (13 < s.length → 4 < (String.mk (s.data.take (s.data.length - 9))).length) := by
  have hlen : s.length = s.data.length := rfl
  refine ⟨?_, ?_, ?_⟩
  · intro h
    unfold formatPhoneNumber
    rw [if_pos h]
  · intro h
    unfold formatPhoneNumber
    rw [if_neg (by omega)]
  · intro h
    have h1 : (String.mk (s.data.take (s.data.length - 9))).length
        = (s.data.take (s.data.length - 9)).length := rfl
    rw [h1, List.length_take]
    omega

/-- C10 witness: a 14-character number is formatted with a 5-character
country-code part, and a short string is returned unchanged. -/
theorem formatPhoneNumber_fixed_suffix_spec_witness :
    formatPhoneNumber "12345678901234" =
      "+" ++ String.mk ("12345678901234".data.take ("12345678901234".data.length - 9)) ++ " "
        ++ String.mk (("12345678901234".data.drop ("12345678901234".data.length - 9)).take 3) ++ " "
        ++ String.mk ((("12345678901234".data.drop ("12345678901234".data.length - 9)).drop 3).take 3)
        ++ " " ++ String.mk (("12345678901234".data.drop ("12345678901234".data.length - 9)).drop 6)
    ∧ formatPhoneNumber "123" = "123"
    ∧ 4 < (String.mk ("12345678901234".data.take ("12345678901234".data.length - 9))).length :=
  ⟨(formatPhoneNumber_fixed_suffix_spec "12345678901234").1 (by decide),
   (formatPhoneNumber_fixed_suffix_spec "123").2.1 (by decide),
   (formatPhoneNumber_fixed_suffix_spec "12345678901234").2.2 (by decide)⟩

/-- C8 counterexample: on input `"972512345678"` the validate tool's
country-code extraction (greedy `/^(\d{1,4})/` match) yields `"9725"`,
not `"972"`: the reply text's country-code field reads
`Country Code: 9725`, and no field `Country Code: 972` followed by a
line break occurs in it. -/
theorem validate_972512345678_echoes_9725 :
    extractCountryCode "972512345678" = "9725"
    ∧ ("9725" : String) ≠ "972"
    ∧ handleValidatePhoneNumber (.obj [("phoneNumber", .str "972512345678")]) =
        .ok "✅ Phone number is valid!\n\n📱 Original: 972512345678\n📞 Formatted: +972 512 345 678\n🌍 Country Code: 9725\n📊 Status: VALID"
    ∧ strContainsSub
        "✅ Phone number is valid!\n\n📱 Original: 972512345678\n📞 Formatted: +972 512 345 678\n🌍 Country Code: 9725\n📊 Status: VALID"
        "Country Code: 972\n" = false :=
  ⟨rfl, by decide, rfl, rfl⟩

/-- C8 amended: calling the validate tool with `"972512345678"` returns
a VALID result whose text contains the formatted output
`+972 512 345 678`, but the echoed country code is `9725` (the greedy
four-digit prefix match), not `972`. -/
theorem validate_972512345678_amended :
    handleValidatePhoneNumber (.obj [("phoneNumber", .str "972512345678")]) =
      .ok "✅ Phone number is valid!\n\n📱 Original: 972512345678\n📞 Formatted: +972 512 345 678\n🌍 Country Code: 9725\n📊 Status: VALID"
    ∧ strContainsSub
        "✅ Phone number is valid!\n\n📱 Original: 972512345678\n📞 Formatted: +972 512 345 678\n🌍 Country Code: 9725\n📊 Status: VALID"
        "+972 512 345 678" = true
    ∧ strContainsSub
        "✅ Phone number is valid!\n\n📱 Original: 972512345678\n📞 Formatted: +972 512 345 678\n🌍 Country Code: 9725\n📊 Status: VALID"
        "📊 Status: VALID" = true
    ∧ strContainsSub
        "✅ Phone number is valid!\n\n📱 Original: 972512345678\n📞 Formatted: +972 512 345 678\n🌍 Country Code: 9725\n📊 Status: VALID"
        "🌍 Country Code: 9725" = true :=
  ⟨rfl, rfl, rfl, rfl⟩

/-! ### Shared helper lemmas about configuration resolution -/

/-- `jsOrS` never yields `""` when its fallback is non-empty. -/
theorem jsOrS_ne_empty (a : Option String) (b : String) (hb : b ≠ "") :
    jsOrS a b ≠ "" := by
  cases a with
  | none => simpa [jsOrS] using hb
  | some s =>
    by_cases h : s = "" <;> simp [jsOrS, h, hb]

/-- The token resolved by `makeApiRequest` is never empty: the hardcoded
default token is non-empty. -/
theorem resolveToken_ne_empty (ct : Option String) (env : Env) :
    resolveToken ct env ≠ "" := by
  unfold resolveToken getConfig
  exact jsOrS_ne_empty _ _ (jsOrS_ne_empty _ _ (by decide))

/-- The instance ID resolved by `makeApiRequest` is never empty: the
hardcoded default instance ID is non-empty. -/
theorem resolveInstanceID_ne_empty (cid : Option String) (env : Env) :
    resolveInstanceID cid env ≠ "" := by
  unfold resolveInstanceID getConfig
  exact jsOrS_ne_empty _ _ (jsOrS_ne_empty _ _ (by decide))

/-- `makeApiRequest` always reaches `fetch`: the configuration-error
branches are unreachable because the hardcoded defaults are non-empty. -/
theorem makeApiRequest_always_requests (endpoint : String) (data : List (String × Json))
    (ct cid : Option String) (env : Env) (resp : UpstreamResponse) :
    ∃ req res, makeApiRequest endpoint data ct cid env resp = .requested req res := by
  unfold makeApiRequest
  rw [if_neg (resolveToken_ne_empty ct env), if_neg (resolveInstanceID_ne_empty cid env)]
  by_cases h : respOk resp = true
  · rw [if_pos h]
    cases hp : resp.parsedBody <;> exact ⟨_, _, rfl⟩
  · rw [if_neg h]
    exact ⟨_, _, rfl⟩

/-- C2 counterexample: a 404 response with body `\x7b"error":"boom"\x7d`
makes `makeApiRequest` throw `McpError(InternalError, "boom")` — the
message does not include the HTTP status `404`. -/
theorem makeApiRequest_nonOk_message_can_omit_status :
    errMsgOf (makeApiRequest "/api/sendMessage" [] none none env0
        ⟨404, "Not Found", "\x7b\"error\":\"boom\"\x7d", some (.obj [("error", .str "boom")])⟩)
      = some "boom"
    ∧ errCodeOf (makeApiRequest "/api/sendMessage" [] none none env0
        ⟨404, "Not Found", "\x7b\"error\":\"boom\"\x7d", some (.obj [("error", .str "boom")])⟩)
      = some .internalError
    ∧ strContainsSub "boom" "404" = false :=
  ⟨rfl, rfl, rfl⟩

/-- C2 amended: every non-2xx upstream response makes `makeApiRequest`
throw a typed `McpError` with code `InternalError`; the message includes
the HTTP status code only when the response body is empty (then it is
`HTTP <status>: <statusText>`); a non-empty body that fails to parse as
JSON becomes the message verbatim, and a JSON object body with a truthy
`error` field replaces the message with that error (with
` - <details>` appended when `details` is truthy), omitting the status. -/
theorem makeApiRequest_nonOk_error_spec (endpoint : String) (data : List (String × Json))
    (ct cid : Option String) (env : Env) (resp : UpstreamResponse)
    (hok : respOk resp = false) :
    errCodeOf (makeApiRequest endpoint data ct cid env resp) = some .internalError
    ∧ (resp.bodyText = "" →
        errMsgOf (makeApiRequest endpoint data ct cid env resp)
          = some ("HTTP " ++ toString resp.status ++ ": " ++ resp.statusText)
        ∧ strContainsSub ("HTTP " ++ toString resp.status ++ ": " ++ resp.statusText)
            (toString resp.status) = true)
    ∧ (resp.bodyText ≠ "" → resp.parsedBody = none →
        errMsgOf (makeApiRequest endpoint data ct cid env resp) = some resp.bodyText)
    ∧ (∀ fs e, resp.bodyText ≠ "" → resp.parsedBody = some (.obj fs) →
        lookupField fs "error" = some e → jsTruthy e = true →
        lookupField fs "details" = none →
        errMsgOf (makeApiRequest endpoint data ct cid env resp) = some (jsDisplay e))
    ∧ (∀ fs e d, resp.bodyText ≠ "" → resp.parsedBody = some (.obj fs) →
        lookupField fs "error" = some e → jsTruthy e = true →
        lookupField fs "details" = some d → jsTruthy d = true →
        errMsgOf (makeApiRequest endpoint data ct cid env resp)
          = some (jsDisplay e ++ " - " ++ jsDisplay d)) := by
  have ht := resolveToken_ne_empty ct env
  have hi := resolveInstanceID_ne_empty cid env
  refine ⟨?_, ?_, ?_, ?_, ?_⟩
  · simp [makeApiRequest, ht, hi, hok, errCodeOf]
  · intro hb
    constructor
    · simp [makeApiRequest, ht, hi, hok, errMsgOf, handleApiError, hb]
    · rw [String.append_assoc]
      exact strContainsSub_middle "HTTP " (toString resp.status) (": " ++ resp.statusText)
  · intro hb hp
    simp [makeApiRequest, ht, hi, hok, errMsgOf, handleApiError, hb, hp]
  · intro fs e hb hp herr htr hdet
    simp [makeApiRequest, ht, hi, hok, errMsgOf, handleApiError, hb, hp, jsonField, herr, htr, hdet]
  · intro fs e d hb hp herr htr hdet htrd
    simp [makeApiRequest, ht, hi, hok, errMsgOf, handleApiError, hb, hp, jsonField, herr, htr, hdet, htrd]

/-- C2 witness: a 500 response with empty body yields
`McpError(InternalError, "HTTP 500: Internal Server Error")`, whose
message contains the status `500`. -/
theorem makeApiRequest_nonOk_error_spec_witness :
    errCodeOf (makeApiRequest "/api/sendMessage" [] none none env0
        ⟨500, "Internal Server Error", "", none⟩) = some .internalError
    ∧ errMsgOf (makeApiRequest "/api/sendMessage" [] none none env0
        ⟨500, "Internal Server Error", "", none⟩)
      = some ("HTTP " ++ toString (500 : Nat) ++ ": " ++ "Internal Server Error")
    ∧ strContainsSub ("HTTP " ++ toString (500 : Nat) ++ ": " ++ "Internal Server Error")
        (toString (500 : Nat)) = true := by
  have h := makeApiRequest_nonOk_error_spec "/api/sendMessage" [] none none env0
    ⟨500, "Internal Server Error", "", none⟩ (by decide)
  exact ⟨h.1, (h.2.1 rfl).1, (h.2.1 rfl).2⟩

/-- C7: `makeApiRequest` issues exactly one POST with content type
`application/json` to `baseUrl ++ endpoint`, whose body is the spread
`\x7b token, instanceID, ...data \x7d` (resolved token and instance ID
first, the caller's fields spread over them); on a 2xx response it
returns the JSON-parsed body, falling back to the envelope
`\x7b success: true, data: <raw text> \x7d` when the body is not valid
JSON. -/
theorem makeApiRequest_request_shape_spec (endpoint : String) (data : List (String × Json))
    (ct cid : Option String) (env : Env) (resp : UpstreamResponse) :
    reqOf (makeApiRequest endpoint data ct cid env resp) =
      some ⟨(getConfig env).baseUrl ++ endpoint, "POST", "application/json",
        .obj (jsSpread [("token", .str (resolveToken ct env)),
                        ("instanceID", .str (resolveInstanceID cid env))] data)⟩
    ∧ (respOk resp = true → ∀ j, resp.parsedBody = some j →
        resultOf (makeApiRequest endpoint data ct cid env resp) = some (.ok j))
    ∧ (respOk resp = true → resp.parsedBody = none →
        resultOf (makeApiRequest endpoint data ct cid env resp) =
          some (.ok (.obj [("success", .bool true), ("data", .str resp.bodyText)]))) := by
  have ht := resolveToken_ne_empty ct env
  have hi := resolveInstanceID_ne_empty cid env
  refine ⟨?_, ?_, ?_⟩
  · by_cases h : respOk resp = true
    · cases hp : resp.parsedBody <;> simp [makeApiRequest, ht, hi, h, hp, reqOf]
    · simp [makeApiRequest, ht, hi, h, reqOf]
  · intro h j hp
    simp [makeApiRequest, ht, hi, h, hp, resultOf]
  · intro h hp
    simp [makeApiRequest, ht, hi, h, hp, resultOf]

/-- C7 witness: with a custom token `"T"`, environment defaults and a
2xx non-JSON body `"ok"`, the issued request and the fallback envelope
are as specified. -/
theorem makeApiRequest_request_shape_spec_witness :
    reqOf (makeApiRequest "/api/sendMessage" [("x", .num 2)] (some "T") none env0
        ⟨200, "OK", "ok", none⟩) =
      some ⟨"https://wapulseserver.com:3003/api/sendMessage", "POST", "application/json",
        .obj [("token", .str "T"),
              ("instanceID", .str "d20dba45-852a-4bfc-ab43-8bfd2d28c2a4"),
              ("x", .num 2)]⟩
    ∧ resultOf (makeApiRequest "/api/sendMessage" [("x", .num 2)] (some "T") none env0
        ⟨200, "OK", "ok", none⟩) =
      some (.ok (.obj [("success", .bool true), ("data", .str "ok")])) := by
  have h := makeApiRequest_request_shape_spec "/api/sendMessage" [("x", .num 2)] (some "T") none
    env0 ⟨200, "OK", "ok", none⟩
  constructor
  · rw [h.1]; exact rfl
  · rw [h.2.2 rfl rfl]

/-- C3: when the zod schema of a tool handler rejects the argument
object, the handler stops with that schema error and no upstream request
is issued — shown for `handleAddParticipants` and `handleSendMessage`,
whose embeddings place `schema.parse` strictly before the
`makeApiRequest` call, as in the source. -/
theorem schemaError_means_no_request (args : Json) (env : Env) (resp : UpstreamResponse)
    (msg : String) :
    (parseAddParticipantsArgs args = .error msg →
      handleAddParticipants args env resp = .schemaError msg
      ∧ requestOf (handleAddParticipants args env resp) = none)
    ∧ (parseSendMessageArgs args = .error msg →
      handleSendMessage args env resp = .schemaError msg
      ∧ requestOf (handleSendMessage args env resp) = none) := by
  constructor
  · intro h
    constructor <;> simp [handleAddParticipants, h, requestOf]
  · intro h
    constructor <;> simp [handleSendMessage, h, requestOf]

/-- C3 witness: the empty argument object fails the add-participants
schema and the handler performs no request. -/
theorem schemaError_means_no_request_witness :
    handleAddParticipants (.obj []) env0 respSample = .schemaError "Required field id missing"
    ∧ requestOf (handleAddParticipants (.obj []) env0 respSample) = none :=
  (schemaError_means_no_request (.obj []) env0 respSample "Required field id missing").1 rfl

/-! ### C5: participant-count bounds of the group tools -/

/-- C5 counterexample: `handleAddParticipants` — one of the group
participant tools — accepts a list of 21 phone numbers (its zod maximum
is 50, not 20) and issues the upstream request. -/
theorem addParticipants_accepts_21_numbers :
    exceptIsOk (parseAddParticipantsArgs args21) = true
    ∧ (requestOf (handleAddParticipants args21 env0 respSample)).isSome = true :=
  ⟨rfl, rfl⟩

/-- zod's per-element check succeeds on a list of strings that all pass
the phone regex. -/
theorem zodPhoneStringList_map_str (ps : List String)
    (h : ps.all validatePhoneNumber = true) :
    zodPhoneStringList (ps.map Json.str) = .ok ps := by
  induction ps with
  | nil => rfl
  | cons p rest ih =>
    rw [List.all_cons, Bool.and_eq_true] at h
    have hp : phoneRegexTest p = true := h.1
    simp [zodPhoneStringList, hp, ih h.2]

/-- `validateParticipants` succeeds on a non-empty list of valid phone
numbers. -/
theorem validateParticipants_all_ok (ps : List String) (hne : ps.length ≠ 0)
    (h : ps.all validatePhoneNumber = true) : validateParticipants ps = .ok () := by
  unfold validateParticipants
  rw [if_neg hne]
  have hf : ps.find? (fun p => !(validatePhoneNumber p)) = none := by
    rw [List.find?_eq_none]
    intro x hx
    rw [List.all_eq_true] at h
    simp [h x hx]
  rw [hf]

/-- C5 amended: with 21 valid phone numbers, the promote, demote and
approve tools (zod maximum 20) reject the arguments at the schema and
issue no request, while the add and remove tools (zod maximum 50) accept
them and do issue the upstream request. -/
theorem participant_tools_max_items_spec (idStr : String) (ps : List String)
    (env : Env) (resp : UpstreamResponse)
    (hid : 1 ≤ idStr.length) (hlen : ps.length = 21)
    (hvalid : ps.all validatePhoneNumber = true) :
    exceptIsOk (parsePromoteParticipantsArgs
        (.obj [("id", .str idStr), ("participants", .arr (ps.map Json.str))])) = false
    ∧ requestOf (handlePromoteParticipants
        (.obj [("id", .str idStr), ("participants", .arr (ps.map Json.str))]) env resp) = none
    ∧ exceptIsOk (parseDemoteParticipantsArgs
        (.obj [("id", .str idStr), ("participants", .arr (ps.map Json.str))])) = false
    ∧ requestOf (handleDemoteParticipants
        (.obj [("id", .str idStr), ("participants", .arr (ps.map Json.str))]) env resp) = none
    ∧ exceptIsOk (parseApproveGroupRequestArgs
        (.obj [("id", .str idStr), ("numbers", .arr (ps.map Json.str))])) = false
    ∧ requestOf (handleApproveGroupRequest
        (.obj [("id", .str idStr), ("numbers", .arr (ps.map Json.str))]) env resp) = none
    ∧ exceptIsOk (parseAddParticipantsArgs
        (.obj [("id", .str idStr), ("participants", .arr (ps.map Json.str))])) = true
    ∧ (requestOf (handleAddParticipants
        (.obj [("id", .str idStr), ("participants", .arr (ps.map Json.str))]) env resp)).isSome = true
    ∧ exceptIsOk (parseRemoveParticipantsArgs
        (.obj [("id", .str idStr), ("participants", .arr (ps.map Json.str))])) = true
    ∧ (requestOf (handleRemoveParticipants
        (.obj [("id", .str idStr), ("participants", .arr (ps.map Json.str))]) env resp)).isSome = true := by
  have hzod := zodPhoneStringList_map_str ps hvalid
  have hnid : ¬(idStr.length < 1) := by omega
  have hp20 : parseParticipantsArgs "participants" 20
      (.obj [("id", .str idStr), ("participants", .arr (ps.map Json.str))])
      = .error ("Array must contain at most " ++ toString (20 : Nat) ++ " element(s) in participants") := by
    simp [parseParticipantsArgs, lookupField, hnid, hzod, hlen]
    rfl
  have hn20 : parseParticipantsArgs "numbers" 20
      (.obj [("id", .str idStr), ("numbers", .arr (ps.map Json.str))])
      = .error ("Array must contain at most " ++ toString (20 : Nat) ++ " element(s) in numbers") := by
    simp [parseParticipantsArgs, lookupField, hnid, hzod, hlen]
    rfl
  have hp50 : parseParticipantsArgs "participants" 50
      (.obj [("id", .str idStr), ("participants", .arr (ps.map Json.str))])
      = .ok ⟨idStr, ps, none, none⟩ := by
    simp [parseParticipantsArgs, lookupField, hnid, hzod, hlen, zodOptionalString]
  have hv : validateParticipants ps = .ok () :=
    validateParticipants_all_ok ps (by omega) hvalid
  refine ⟨?_, ?_, ?_, ?_, ?_, ?_, ?_, ?_, ?_, ?_⟩
  · rw [parsePromoteParticipantsArgs, hp20]; rfl
  · simp [handlePromoteParticipants, parsePromoteParticipantsArgs, hp20, requestOf]
  · rw [parseDemoteParticipantsArgs, hp20]; rfl
  · simp [handleDemoteParticipants, parseDemoteParticipantsArgs, hp20, requestOf]
  · rw [parseApproveGroupRequestArgs, hn20]; rfl
  · simp [handleApproveGroupRequest, parseApproveGroupRequestArgs, hn20, requestOf]
  · rw [parseAddParticipantsArgs, hp50]; rfl
  · obtain ⟨req, res, heq⟩ := makeApiRequest_always_requests "/api/addParticipants"
      [("id", .str idStr), ("participants", .arr (ps.map Json.str))] none none env resp
    simp only [handleAddParticipants, parseAddParticipantsArgs, hp50, hv, heq]
    cases res <;> simp [requestOf]
  · rw [parseRemoveParticipantsArgs, hp50]; rfl
  · obtain ⟨req, res, heq⟩ := makeApiRequest_always_requests "/api/removeParticipants"
      [("id", .str idStr), ("participants", .arr (ps.map Json.str))] none none env resp
    simp only [handleRemoveParticipants, parseRemoveParticipantsArgs, hp50, hv, heq]
    cases res <;> simp [requestOf]

/-- C5 witness: with the concrete 21-number list, promote rejects at the
schema with no request while add accepts. -/
theorem participant_tools_max_items_spec_witness :
    exceptIsOk (parsePromoteParticipantsArgs args21) = false
    ∧ requestOf (handlePromoteParticipants args21 env0 respSample) = none
    ∧ exceptIsOk (parseAddParticipantsArgs args21) = true := by
  have h := participant_tools_max_items_spec "123456789@g.us" phones21 env0 respSample
    (by decide) (by decide) (by decide)
  exact ⟨h.1, h.2.1, h.2.2.2.2.2.2.1⟩

/-! ### C4: what the handler text embeds -/

set_option maxRecDepth 8192 in
/-- C4 counterexample: for a 2xx response with the compact JSON body
`\x7b"a":1\x7d`, the add-participants handler succeeds but its output
text does not contain the raw response body verbatim (it embeds the
2-space pretty-printed re-serialization instead). -/
theorem addParticipants_raw_body_not_embedded_verbatim :
    (textOf (handleAddParticipants argsOne env0 respCompactJson)).isSome = true
    ∧ strContainsSub ((textOf (handleAddParticipants argsOne env0 respCompactJson)).getD "")
        "\x7b\"a\":1\x7d" = false :=
  ⟨rfl, rfl⟩

/-- On a 2xx response with parsed body `j`, `makeApiRequest` returns
`Except.ok j` after issuing its one request. -/
theorem makeApiRequest_ok_result (endpoint : String) (data : List (String × Json))
    (ct cid : Option String) (env : Env) (resp : UpstreamResponse) (j : Json)
    (hok : respOk resp = true) (hj : resp.parsedBody = some j) :
    ∃ req, makeApiRequest endpoint data ct cid env resp = .requested req (.ok j) := by
  have ht := resolveToken_ne_empty ct env
  have hi := resolveInstanceID_ne_empty cid env
  refine ⟨⟨(getConfig env).baseUrl ++ endpoint, "POST", "application/json",
    .obj (jsSpread [("token", .str (resolveToken ct env)),
      ("instanceID", .str (resolveInstanceID cid env))] data)⟩, ?_⟩
  simp [makeApiRequest, ht, hi, hok, hj]

/-- C4 amended: for every schema-accepted call of the add-participants
handler and every 2xx response whose body parses to `j`, the output text
embeds `JSON.stringify(j, null, 2)` — the pretty-printed
re-serialization of the parsed response, not the raw body text. -/
theorem addParticipants_embeds_stringified_response (args : Json) (a : ParticipantsArgs)
    (env : Env) (resp : UpstreamResponse) (j : Json)
    (hp : parseAddParticipantsArgs args = .ok a)
    (hv : validateParticipants a.participants = .ok ())
    (hok : respOk resp = true) (hj : resp.parsedBody = some j) :
    (textOf (handleAddParticipants args env resp)).isSome = true
    ∧ strContainsSub ((textOf (handleAddParticipants args env resp)).getD "")
        (jsonStringify2 "" j) = true := by
  obtain ⟨req, heq⟩ := makeApiRequest_ok_result "/api/addParticipants"
    [("id", .str a.id), ("participants", .arr (a.participants.map Json.str))]
    a.customToken a.customInstanceID env resp j hok hj
  constructor
  · simp [handleAddParticipants, hp, hv, heq, textOf]
  · simp only [handleAddParticipants, hp, hv, heq, textOf, Option.getD_some]
    exact strContainsSub_suffix _ _

/-- C4 witness: on the concrete single-participant call with the compact
JSON response, the pretty-printed serialization is embedded. -/
theorem addParticipants_embeds_stringified_response_witness :
    (textOf (handleAddParticipants argsOne env0 respCompactJson)).isSome = true
    ∧ strContainsSub ((textOf (handleAddParticipants argsOne env0 respCompactJson)).getD "")
        (jsonStringify2 "" (.obj [("a", .num 1)])) = true :=
  addParticipants_embeds_stringified_response argsOne
    ⟨"123456789@g.us", ["353871234567"], none, none⟩ env0 respCompactJson
    (.obj [("a", .num 1)]) rfl rfl rfl rfl

/-! ### C6: configuration precedence -/

/-- `jsOrS` on a truthy first operand. -/
theorem jsOrS_some_truthy (s : String) (b : String) (h : s ≠ "") : jsOrS (some s) b = s := by
  simp [jsOrS, h]

/-- `jsOrS` on a falsy first operand. -/
theorem jsOrS_falsy (a : Option String) (b : String) (h : a = none ∨ a = some "") :
    jsOrS a b = b := by
  rcases h with h | h <;> simp [jsOrS, h]

/-- C6 counterexample: with no per-call override, a URL-populated global
config token `"urlToken"` and environment token `"envToken"`,
`getEffectiveConfig` resolves to the global-config value — while the
claimed precedence (override > environment variable > hardcoded
default, `specClaimedResolution`) would resolve to the environment
value. -/
theorem getEffectiveConfig_globalConfig_beats_env :
    getEffectiveConfig none none ⟨some "urlToken", some "urlIID"⟩
        ⟨some "envToken", some "envIID", none⟩ = .ok ("urlToken", "urlIID")
    ∧ specClaimedResolution none (some "envToken") "" = "envToken"
    ∧ ("urlToken" : String) ≠ "envToken" :=
  ⟨rfl, rfl, by decide⟩

/-- C6 amended: `makeApiRequest` resolves token and instance ID with
precedence per-call override > environment variable > hardcoded
default; because the hardcoded defaults are non-empty, resolution never
fails there and the invalid-parameter branch is unreachable (no
configuration error is ever raised).  `getEffectiveConfig` (config.ts)
resolves with precedence per-call override > global config (URL- or
env-populated) > environment variable, has no hardcoded default, and
throws its configuration-required error exactly when the token or the
instance ID resolves falsy. -/
theorem config_resolution_spec :
    (∀ (s : String) (env : Env), s ≠ "" → resolveToken (some s) env = s)
    ∧ (∀ (ct : Option String) (env : Env) (t : String), (ct = none ∨ ct = some "") →
        env.wapulseToken = some t → t ≠ "" → resolveToken ct env = t)
    ∧ (∀ (ct : Option String) (env : Env), (ct = none ∨ ct = some "") →
        (env.wapulseToken = none ∨ env.wapulseToken = some "") →
        resolveToken ct env = DEFAULT_CONFIG.token)
    ∧ (∀ (s : String) (env : Env), s ≠ "" → resolveInstanceID (some s) env = s)
    ∧ (∀ (cid : Option String) (env : Env) (t : String), (cid = none ∨ cid = some "") →
        env.wapulseInstanceID = some t → t ≠ "" → resolveInstanceID cid env = t)
    ∧ (∀ (cid : Option String) (env : Env), (cid = none ∨ cid = some "") →
        (env.wapulseInstanceID = none ∨ env.wapulseInstanceID = some "") →
        resolveInstanceID cid env = DEFAULT_CONFIG.instanceID)
    ∧ (∀ (endpoint : String) (data : List (String × Json)) (ct cid : Option String)
        (env : Env) (resp : UpstreamResponse),
        isConfigError (makeApiRequest endpoint data ct cid env resp) = false)
    ∧ (∀ (s : String) (gc : GlobalConfig) (env : Env), s ≠ "" → effToken (some s) gc env = s)
    ∧ (∀ (ct : Option String) (gc : GlobalConfig) (env : Env) (t : String),
        (ct = none ∨ ct = some "") → gc.wapulseToken = some t → t ≠ "" →
        effToken ct gc env = t)
    ∧ (∀ (ct : Option String) (gc : GlobalConfig) (env : Env) (t : String),
        (ct = none ∨ ct = some "") → (gc.wapulseToken = none ∨ gc.wapulseToken = some "") →
        env.wapulseToken = some t → effToken ct gc env = t)
    ∧ (∀ (s : String) (gc : GlobalConfig) (env : Env), s ≠ "" →
        effInstanceID (some s) gc env = s)
    ∧ (∀ (cid : Option String) (gc : GlobalConfig) (env : Env) (t : String),
        (cid = none ∨ cid = some "") → gc.wapulseInstanceID = some t → t ≠ "" →
        effInstanceID cid gc env = t)
    ∧ (∀ (cid : Option String) (gc : GlobalConfig) (env : Env) (t : String),
        (cid = none ∨ cid = some "") →
        (gc.wapulseInstanceID = none ∨ gc.wapulseInstanceID = some "") →
        env.wapulseInstanceID = some t → effInstanceID cid gc env = t)
    ∧ (∀ (ct cid : Option String) (gc : GlobalConfig) (env : Env),
        effToken ct gc env = "" ∨ effInstanceID cid gc env = "" →
        getEffectiveConfig ct cid gc env =
          .error "WaPulse configuration required. Please provide wapulseToken and wapulseInstanceID in server configuration or as custom parameters.")
    ∧ (∀ (ct cid : Option String) (gc : GlobalConfig) (env : Env),
        effToken ct gc env ≠ "" → effInstanceID cid gc env ≠ "" →
        getEffectiveConfig ct cid gc env =
          .ok (effToken ct gc env, effInstanceID cid gc env)) := by
  refine ⟨?_, ?_, ?_, ?_, ?_, ?_, ?_, ?_, ?_, ?_, ?_, ?_, ?_, ?_, ?_⟩
  · intro s env h
    unfold resolveToken
    exact jsOrS_some_truthy s _ h
  · intro ct env t hct het ht
    unfold resolveToken getConfig
    rw [jsOrS_falsy ct _ hct, het, jsOrS_some_truthy t _ ht]
  · intro ct env hct het
    unfold resolveToken getConfig
    rw [jsOrS_falsy ct _ hct, jsOrS_falsy _ _ het]
  · intro s env h
    unfold resolveInstanceID
    exact jsOrS_some_truthy s _ h
  · intro cid env t hcid het ht
    unfold resolveInstanceID getConfig
    rw [jsOrS_falsy cid _ hcid, het, jsOrS_some_truthy t _ ht]
  · intro cid env hcid het
    unfold resolveInstanceID getConfig
    rw [jsOrS_falsy cid _ hcid, jsOrS_falsy _ _ het]
  · intro endpoint data ct cid env resp
    obtain ⟨req, res, heq⟩ := makeApiRequest_always_requests endpoint data ct cid env resp
    rw [heq]
    rfl
  · intro s gc env h
    unfold effToken
    exact jsOrS_some_truthy s _ h
  · intro ct gc env t hct hgc ht
    unfold effToken
    rw [jsOrS_falsy ct _ hct, hgc, jsOrS_some_truthy t _ ht]
  · intro ct gc env t hct hgc het
    unfold effToken
    rw [jsOrS_falsy ct _ hct, jsOrS_falsy _ _ hgc, het]
    by_cases h : t = ""
    · simp [jsOrS, h]
    · exact jsOrS_some_truthy t _ h
  · intro s gc env h
    unfold effInstanceID
    exact jsOrS_some_truthy s _ h
  · intro cid gc env t hcid hgc ht
    unfold effInstanceID
    rw [jsOrS_falsy cid _ hcid, hgc, jsOrS_some_truthy t _ ht]
  · intro cid gc env t hcid hgc het
    unfold effInstanceID
    rw [jsOrS_falsy cid _ hcid, jsOrS_falsy _ _ hgc, het]
    by_cases h : t = ""
    · simp [jsOrS, h]
    · exact jsOrS_some_truthy t _ h
  · intro ct cid gc env h
    unfold getEffectiveConfig
    rw [if_pos h]
  · intro ct cid gc env h1 h2
    unfold getEffectiveConfig
    rw [if_neg (by tauto)]

/-- C6 witness: concrete resolutions — a custom token wins, the env
token is used when no custom token is given, the hardcoded default is
the final fallback in `makeApiRequest` (which never raises a
configuration error), the global-config token wins over the environment
in `getEffectiveConfig`, and an entirely unconfigured
`getEffectiveConfig` throws. -/
theorem config_resolution_spec_witness :
    resolveToken (some "T") env0 = "T"
    ∧ resolveToken none ⟨some "E", none, none⟩ = "E"
    ∧ resolveToken none env0 = DEFAULT_CONFIG.token
    ∧ isConfigError (makeApiRequest "/api/sendMessage" [] none none env0 respSample) = false
    ∧ effToken none ⟨some "G", none⟩ ⟨some "E", none, none⟩ = "G"
    ∧ getEffectiveConfig none none ⟨none, none⟩ env0 =
        .error "WaPulse configuration required. Please provide wapulseToken and wapulseInstanceID in server configuration or as custom parameters." := by
  obtain ⟨c1, c2, c3, c4, c5, c6, c7, c8, c9, c10, c11, c12, c13, c14, c15⟩ :=
    config_resolution_spec
  exact ⟨c1 "T" env0 (by decide),
    c2 none ⟨some "E", none, none⟩ "E" (Or.inl rfl) rfl (by decide),
    c3 none env0 (Or.inl rfl) (Or.inl rfl),
    c7 "/api/sendMessage" [] none none env0 respSample,
    c9 none ⟨some "G", none⟩ ⟨some "E", none, none⟩ "G" (Or.inl rfl) rfl (by decide),
    c14 none none ⟨none, none⟩ env0 (Or.inl rfl)⟩

/-! ### C9: rate-limit map lemmas -/

theorem rlGet_eq_none (m : RLMap) (k : String) (h : k ∉ m.map Prod.fst) :
    rlGet m k = none := by
  induction m with
  | nil => rfl
  | cons he rest ih =>
    obtain ⟨k', e'⟩ := he
    simp only [List.map_cons, List.mem_cons] at h
    push_neg at h
    rw [rlGet, if_neg (fun hh => h.1 hh.symm)]
    exact ih h.2

theorem rlGet_rlSet_self (m : RLMap) (k : String) (e : RLEntry) :
    rlGet (rlSet m k e) k = some e := by
  induction m with
  | nil => simp [rlSet, rlGet]
  | cons he rest ih =>
    obtain ⟨k', e'⟩ := he
    by_cases h : k' = k <;> simp [rlSet, rlGet, h, ih]

theorem rlGet_rlSet_ne (m : RLMap) (k k2 : String) (e : RLEntry) (h : k ≠ k2) :
    rlGet (rlSet m k e) k2 = rlGet m k2 := by
  induction m with
  | nil => simp [rlSet, rlGet, h]
  | cons he rest ih =>
    obtain ⟨k', e'⟩ := he
    by_cases h2 : k' = k
    · subst h2
      simp [rlSet, rlGet, h]
    · simp only [rlSet, if_neg h2, rlGet]
      by_cases h3 : k' = k2 <;> simp [h3, ih]

theorem keys_rlSet_mem (m : RLMap) (k : String) (e : RLEntry) (x : String)
    (hx : x ∈ (rlSet m k e).map Prod.fst) : x = k ∨ x ∈ m.map Prod.fst := by
  induction m with
  | nil => simpa [rlSet] using hx
  | cons he rest ih =>
    obtain ⟨k', e'⟩ := he
    by_cases h : k' = k
    · subst h
      simp only [rlSet, if_pos rfl, List.map_cons] at hx
      exact Or.inr hx
    · simp only [rlSet, if_neg h, List.map_cons, List.mem_cons] at hx
      rcases hx with hx | hx
      · exact Or.inr (by simp [hx])
      · rcases ih hx with h1 | h1
        · exact Or.inl h1
        · exact Or.inr (by simp [h1])

theorem nodup_rlSet (m : RLMap) (k : String) (e : RLEntry)
    (hnd : (m.map Prod.fst).Nodup) : ((rlSet m k e).map Prod.fst).Nodup := by
  induction m with
  | nil => simp [rlSet]
  | cons he rest ih =>
    obtain ⟨k', e'⟩ := he
    simp only [List.map_cons, List.nodup_cons] at hnd
    obtain ⟨hmem, hnd'⟩ := hnd
    by_cases h : k' = k
    · subst h
      rw [show rlSet ((k', e') :: rest) k' e = (k', e) :: rest from by simp [rlSet]]
      simp only [List.map_cons, List.nodup_cons]
      exact ⟨hmem, hnd'⟩
    · simp only [rlSet, if_neg h, List.map_cons, List.nodup_cons]
      refine ⟨?_, ih hnd'⟩
      intro hx
      rcases keys_rlSet_mem rest k e k' hx with h1 | h1
      · exact h h1
      · exact hmem h1

theorem rlCount_filter_le (m : RLMap) (p : String × RLEntry → Bool) (k : String)
    (hnd : (m.map Prod.fst).Nodup) :
    rlCount (List.filter p m) k ≤ rlCount m k := by
  induction m with
  | nil => simp [rlCount, rlGet]
  | cons he rest ih =>
    obtain ⟨k', e'⟩ := he
    simp only [List.map_cons, List.nodup_cons] at hnd
    obtain ⟨hmem, hnd'⟩ := hnd
    by_cases hkk : k' = k
    · subst hkk
      rw [List.filter_cons]
      by_cases hp : p (k', e') = true
      · simp [hp, rlCount, rlGet]
      · simp only [hp, Bool.false_eq_true, if_false]
        have hn : rlGet (List.filter p rest) k' = none := by
          refine rlGet_eq_none _ _ (fun hx => hmem ?_)
          obtain ⟨y, hy, hxy⟩ := List.mem_map.mp hx
          exact List.mem_map.mpr ⟨y, List.mem_of_mem_filter hy, hxy⟩
        simp [rlCount, rlGet, hn]
    · have h1 : rlCount ((k', e') :: rest) k = rlCount rest k := by
        simp [rlCount, rlGet, hkk]
      rw [List.filter_cons]
      by_cases hp : p (k', e') = true
      · simp only [hp, if_true]
        have h2 : rlCount ((k', e') :: List.filter p rest) k = rlCount (List.filter p rest) k := by
          simp [rlCount, rlGet, hkk]
        rw [h1, h2]
        exact ih hnd'
      · simp only [hp, Bool.false_eq_true, if_false]
        rw [h1]
        exact ih hnd'

theorem rlCount_getD_count (m : RLMap) (k : String) (x : Nat) :
    ((rlGet m k).getD ⟨0, x⟩).count = rlCount m k := by
  cases h : rlGet m k <;> simp [rlCount, h]

/-- When the minute counter is at its limit, `checkRateLimit` throws and
returns the map untouched. -/
theorem checkRateLimit_minute_throw (userId : String) (rl : Option RateLimitCfg)
    (now : Nat) (m : RLMap)
    (h : (rl.getD DEFAULT_RATE_LIMITS).requestsPerMinute ≤
      ((rlGet m (minuteKeyOf userId now)).getD ⟨0, now + 60000⟩).count) :
    (checkRateLimit userId rl now m).1.isSome = true
    ∧ (checkRateLimit userId rl now m).2 = m := by
  simp only [checkRateLimit]
  rw [if_pos h]
  exact ⟨rfl, rfl⟩

/-- When the minute counter is under its limit but the hour counter is
at its limit, `checkRateLimit` throws and returns the map untouched. -/
theorem checkRateLimit_hour_throw (userId : String) (rl : Option RateLimitCfg)
    (now : Nat) (m : RLMap)
    (h1 : ¬ (rl.getD DEFAULT_RATE_LIMITS).requestsPerMinute ≤
      ((rlGet m (minuteKeyOf userId now)).getD ⟨0, now + 60000⟩).count)
    (h2 : (rl.getD DEFAULT_RATE_LIMITS).requestsPerHour ≤
      ((rlGet m (hourKeyOf userId now)).getD ⟨0, now + 3600000⟩).count) :
    (checkRateLimit userId rl now m).1.isSome = true
    ∧ (checkRateLimit userId rl now m).2 = m := by
  simp only [checkRateLimit]
  rw [if_neg h1, if_pos h2]
  exact ⟨rfl, rfl⟩

/-- When both counters are under their limits, `checkRateLimit` admits
the call: both window entries are bumped and stale entries cleaned. -/
theorem checkRateLimit_success_map (userId : String) (rl : Option RateLimitCfg)
    (now : Nat) (m : RLMap)
    (h1 : ¬ (rl.getD DEFAULT_RATE_LIMITS).requestsPerMinute ≤
      ((rlGet m (minuteKeyOf userId now)).getD ⟨0, now + 60000⟩).count)
    (h2 : ¬ (rl.getD DEFAULT_RATE_LIMITS).requestsPerHour ≤
      ((rlGet m (hourKeyOf userId now)).getD ⟨0, now + 3600000⟩).count) :
    (checkRateLimit userId rl now m).2 =
      List.filter (fun kv => !(decide (kv.2.resetTime < now)))
        (rlSet (rlSet m (minuteKeyOf userId now)
            ⟨((rlGet m (minuteKeyOf userId now)).getD ⟨0, now + 60000⟩).count + 1,
              ((rlGet m (minuteKeyOf userId now)).getD ⟨0, now + 60000⟩).resetTime⟩)
          (hourKeyOf userId now)
          ⟨((rlGet m (hourKeyOf userId now)).getD ⟨0, now + 3600000⟩).count + 1,
            ((rlGet m (hourKeyOf userId now)).getD ⟨0, now + 3600000⟩).resetTime⟩) := by
  simp only [checkRateLimit]
  rw [if_neg h1, if_neg h2]

/-- C9: fixed-window invariant of `checkRateLimit`.  For every user and
minute (resp. hour) window of a well-formed map: once the stored counter
has reached the user's `requestsPerMinute` (resp. `requestsPerHour`)
limit, a further call in the same window throws and leaves the map —
hence the counter — unchanged; and a counter that is within its limit
stays within its limit after any call, so no stored counter ever
exceeds its limit. -/
theorem checkRateLimit_window_limit_spec (userId : String) (rl : Option RateLimitCfg)
    (now : Nat) (m : RLMap) (hnd : (m.map Prod.fst).Nodup) :
    ((rl.getD DEFAULT_RATE_LIMITS).requestsPerMinute ≤ rlCount m (minuteKeyOf userId now) →
        (checkRateLimit userId rl now m).1.isSome = true
        ∧ (checkRateLimit userId rl now m).2 = m)
    ∧ (rlCount m (minuteKeyOf userId now) < (rl.getD DEFAULT_RATE_LIMITS).requestsPerMinute →
        (rl.getD DEFAULT_RATE_LIMITS).requestsPerHour ≤ rlCount m (hourKeyOf userId now) →
        (checkRateLimit userId rl now m).1.isSome = true
        ∧ (checkRateLimit userId rl now m).2 = m)
    ∧ (rlCount m (minuteKeyOf userId now) ≤ (rl.getD DEFAULT_RATE_LIMITS).requestsPerMinute →
        rlCount (checkRateLimit userId rl now m).2 (minuteKeyOf userId now)
          ≤ (rl.getD DEFAULT_RATE_LIMITS).requestsPerMinute)
    ∧ (rlCount m (hourKeyOf userId now) ≤ (rl.getD DEFAULT_RATE_LIMITS).requestsPerHour →
        rlCount (checkRateLimit userId rl now m).2 (hourKeyOf userId now)
          ≤ (rl.getD DEFAULT_RATE_LIMITS).requestsPerHour) := by
  have hcm := rlCount_getD_count m (minuteKeyOf userId now) (now + 60000)
  have hch := rlCount_getD_count m (hourKeyOf userId now) (now + 3600000)
  refine ⟨?_, ?_, ?_, ?_⟩
  · intro h
    exact checkRateLimit_minute_throw userId rl now m (by rw [hcm]; exact h)
  · intro h1 h2
    exact checkRateLimit_hour_throw userId rl now m (by rw [hcm]; omega)
      (by rw [hch]; exact h2)
  · intro hle
    by_cases c1 : (rl.getD DEFAULT_RATE_LIMITS).requestsPerMinute ≤
        ((rlGet m (minuteKeyOf userId now)).getD ⟨0, now + 60000⟩).count
    · rw [(checkRateLimit_minute_throw userId rl now m c1).2]
      exact hle
    · by_cases c2 : (rl.getD DEFAULT_RATE_LIMITS).requestsPerHour ≤
          ((rlGet m (hourKeyOf userId now)).getD ⟨0, now + 3600000⟩).count
      · rw [(checkRateLimit_hour_throw userId rl now m c1 c2).2]
        exact hle
      · rw [checkRateLimit_success_map userId rl now m c1 c2]
        have hnd2 : ((rlSet (rlSet m (minuteKeyOf userId now)
              ⟨((rlGet m (minuteKeyOf userId now)).getD ⟨0, now + 60000⟩).count + 1,
                ((rlGet m (minuteKeyOf userId now)).getD ⟨0, now + 60000⟩).resetTime⟩)
            (hourKeyOf userId now)
            ⟨((rlGet m (hourKeyOf userId now)).getD ⟨0, now + 3600000⟩).count + 1,
              ((rlGet m (hourKeyOf userId now)).getD ⟨0, now + 3600000⟩).resetTime⟩).map
            Prod.fst).Nodup :=
          nodup_rlSet _ _ _ (nodup_rlSet _ _ _ hnd)
        refine le_trans (rlCount_filter_le _ _ _ hnd2) ?_
        by_cases hkey : hourKeyOf userId now = minuteKeyOf userId now
        · have hget : rlGet (rlSet (rlSet m (minuteKeyOf userId now)
                ⟨((rlGet m (minuteKeyOf userId now)).getD ⟨0, now + 60000⟩).count + 1,
                  ((rlGet m (minuteKeyOf userId now)).getD ⟨0, now + 60000⟩).resetTime⟩)
              (hourKeyOf userId now)
              ⟨((rlGet m (hourKeyOf userId now)).getD ⟨0, now + 3600000⟩).count + 1,
                ((rlGet m (hourKeyOf userId now)).getD ⟨0, now + 3600000⟩).resetTime⟩)
              (minuteKeyOf userId now)
              = some ⟨((rlGet m (hourKeyOf userId now)).getD ⟨0, now + 3600000⟩).count + 1,
                ((rlGet m (hourKeyOf userId now)).getD ⟨0, now + 3600000⟩).resetTime⟩ := by
            rw [← hkey]
            exact rlGet_rlSet_self _ _ _
          have hcc : ((rlGet m (hourKeyOf userId now)).getD ⟨0, now + 3600000⟩).count
              = rlCount m (minuteKeyOf userId now) := by
            rw [hch, hkey]
          simp only [rlCount, hget]
          rw [hcm] at c1
          omega
        · have hget : rlGet (rlSet (rlSet m (minuteKeyOf userId now)
                ⟨((rlGet m (minuteKeyOf userId now)).getD ⟨0, now + 60000⟩).count + 1,
                  ((rlGet m (minuteKeyOf userId now)).getD ⟨0, now + 60000⟩).resetTime⟩)
              (hourKeyOf userId now)
              ⟨((rlGet m (hourKeyOf userId now)).getD ⟨0, now + 3600000⟩).count + 1,
                ((rlGet m (hourKeyOf userId now)).getD ⟨0, now + 3600000⟩).resetTime⟩)
              (minuteKeyOf userId now)
              = some ⟨((rlGet m (minuteKeyOf userId now)).getD ⟨0, now + 60000⟩).count + 1,
                ((rlGet m (minuteKeyOf userId now)).getD ⟨0, now + 60000⟩).resetTime⟩ := by
            rw [rlGet_rlSet_ne _ _ _ _ hkey]
            exact rlGet_rlSet_self _ _ _
          simp only [rlCount, hget]
          rw [hcm] at c1
          omega
  · intro hle
    by_cases c1 : (rl.getD DEFAULT_RATE_LIMITS).requestsPerMinute ≤
        ((rlGet m (minuteKeyOf userId now)).getD ⟨0, now + 60000⟩).count
    · rw [(checkRateLimit_minute_throw userId rl now m c1).2]
      exact hle
    · by_cases c2 : (rl.getD DEFAULT_RATE_LIMITS).requestsPerHour ≤
          ((rlGet m (hourKeyOf userId now)).getD ⟨0, now + 3600000⟩).count
      · rw [(checkRateLimit_hour_throw userId rl now m c1 c2).2]
        exact hle
      · rw [checkRateLimit_success_map userId rl now m c1 c2]
        have hnd2 : ((rlSet (rlSet m (minuteKeyOf userId now)
              ⟨((rlGet m (minuteKeyOf userId now)).getD ⟨0, now + 60000⟩).count + 1,
                ((rlGet m (minuteKeyOf userId now)).getD ⟨0, now + 60000⟩).resetTime⟩)
            (hourKeyOf userId now)
            ⟨((rlGet m (hourKeyOf userId now)).getD ⟨0, now + 3600000⟩).count + 1,
              ((rlGet m (hourKeyOf userId now)).getD ⟨0, now + 3600000⟩).resetTime⟩).map
            Prod.fst).Nodup :=
          nodup_rlSet _ _ _ (nodup_rlSet _ _ _ hnd)
        refine le_trans (rlCount_filter_le _ _ _ hnd2) ?_
        have hget : rlGet (rlSet (rlSet m (minuteKeyOf userId now)
              ⟨((rlGet m (minuteKeyOf userId now)).getD ⟨0, now + 60000⟩).count + 1,
                ((rlGet m (minuteKeyOf userId now)).getD ⟨0, now + 60000⟩).resetTime⟩)
            (hourKeyOf userId now)
            ⟨((rlGet m (hourKeyOf userId now)).getD ⟨0, now + 3600000⟩).count + 1,
              ((rlGet m (hourKeyOf userId now)).getD ⟨0, now + 3600000⟩).resetTime⟩)
            (hourKeyOf userId now)
            = some ⟨((rlGet m (hourKeyOf userId now)).getD ⟨0, now + 3600000⟩).count + 1,
              ((rlGet m (hourKeyOf userId now)).getD ⟨0, now + 3600000⟩).resetTime⟩ :=
          rlGet_rlSet_self _ _ _
        simp only [rlCount, hget]
        rw [hch] at c2
        omega

/-- C9 witness: with a per-minute limit of 2 and a stored minute counter
already at 2, the concrete call throws and leaves the map unchanged. -/
theorem checkRateLimit_window_limit_spec_witness :
    (checkRateLimit "u" (some ⟨2, 5⟩) 0 [("u:0", ⟨2, 60000⟩)]).1.isSome = true
    ∧ (checkRateLimit "u" (some ⟨2, 5⟩) 0 [("u:0", ⟨2, 60000⟩)]).2 = [("u:0", ⟨2, 60000⟩)] := by
  have h := checkRateLimit_window_limit_spec "u" (some ⟨2, 5⟩) 0 [("u:0", ⟨2, 60000⟩)]
    (by simp)
  exact h.1 (by decide)
